import Mathlib

/-
Verification of the APOD classification-and-fetch pipeline of
`cyberscavengers.py` (NASA APOD Streamlit viewer), as a shallow embedding.

Strings model Python `str`; `lower` models `str.lower()` on the ASCII text
used by the program, and `strIn needle hay` models the Python expression
`needle in hay` (substring containment). Parsed JSON bodies are modelled as
association lists from field names to string values, with `dict.get`
modelled by `jget`.
-/

namespace Cyberscavengers

/-- Lowercase a string, character by character (models Python `str.lower()`
on the ASCII titles, explanations and keywords this program handles). -/
def lower (s : String) : String := ⟨s.data.map Char.toLower⟩

/-- `startsWithL n h` holds when the list `n` is an initial segment of `h`. -/
def startsWithL : List Char → List Char → Bool
  | [], _ => true
  | _ :: _, [] => false
  | a :: as, b :: bs => a == b && startsWithL as bs

/-- `occursIn n h` holds when `n` occurs as a contiguous sublist of `h`. -/
def occursIn (needle : List Char) : List Char → Bool
  | [] => needle.isEmpty
  | c :: rest => startsWithL needle (c :: rest) || occursIn needle rest

/-- `strIn needle hay` models the Python expression `needle in hay` on
strings: substring containment. -/
def strIn (needle hay : String) : Bool := occursIn needle.data hay.data

/-- The fixed keyword list (source lines 233-237, `solar_system_keywords`). -/
def solar_system_keywords : List String :=
  ["mercury", "venus", "earth", "mars", "jupiter", "saturn", "uranus", "neptune",
   "moon", "sun", "comet", "asteroid", "aurora",
   "apollo", "iss", "viking", "curiosity", "cassini", "voyager", "juno", "osiris"]

/-- The manual exclusion list (source lines 45-48, `EXCLUDE_DATES`). -/
def EXCLUDE_DATES : List String := ["1998-04-01", "2005-07-04"]

/-- Keyword step of the classifier (source line 240): any keyword occurs as
a substring of the lowercased title or the lowercased explanation. -/
def apod_is_solar (title explan : String) : Bool :=
  solar_system_keywords.any (fun keyword => strIn keyword (lower title) || strIn keyword (lower explan))

/-- Condition guarding the solar-system section (source line 243): keyword
match and the entry date not in the exclusion list. This is the effective
`isSolar` verdict of the classifier. -/
def solar_verdict (title explan apod_date : String) : Bool :=
  apod_is_solar title explan && !(EXCLUDE_DATES.contains apod_date)

/-- `bodyOccurs b title explan` models the per-body test at source line 250:
`body.lower() in title.lower() or body.lower() in explanation.lower()`. -/
def bodyOccurs (b title explan : String) : Bool :=
  strIn (lower b) (lower title) || strIn (lower b) (lower explan)

/-- The ordered body list scanned at source line 249. -/
def body_scan_order : List String :=
  ["Mercury", "Venus", "Mars", "Jupiter", "Saturn", "Uranus", "Neptune", "Earth", "Moon"]

/-- The for-loop with break at source lines 249-252: return the first body of
the list that occurs in title or explanation. -/
def main_body_scan (title explan : String) : List String → String
  | [] => "Sun"
  | b :: rest =>
    if bodyOccurs b title explan then b else main_body_scan title explan rest

/-- `main_body` (source lines 248-252): initialised to `"Sun"`, overwritten by
the first matching body of the fixed scan order. -/
def main_body (title explan : String) : String :=
  main_body_scan title explan body_scan_order

/-- The API credential string (source line 21). -/
def API_KEY : String := "1Az74dirI1HZ7ZFXyDZRLGrGYCuyAhQmEFneJVn4"

/-- An HTTP response as consumed by `fetch_apod` (source lines 58-65): the
status code, the parsed JSON body (an association list of string fields), and
the raw body text. -/
structure Response where
  status_code : Nat
  json : List (String × String)
  text : String
deriving DecidableEq

/-- The two failure kinds raised by `fetch_apod` (source lines 62-65): the
429 branch, and the generic branch carrying the status code and raw body. -/
inductive FetchError where
  | rateLimited : FetchError
  | upstream (status_code : Nat) (body : String) : FetchError
deriving DecidableEq

/-- The message of each raise in `fetch_apod` (source lines 63 and 65). -/
def FetchError.message : FetchError → String
  | .rateLimited => "Rate limit exceeded. Please try again later."
  | .upstream c b => "API request failed with status code " ++ toString c ++ ". Response: " ++ b

/-- Response handling of `fetch_apod` (source lines 60-65): 200 returns the
parsed JSON body, 429 raises the rate-limit error, anything else raises the
upstream error with status code and raw body. -/
def fetch_apod (r : Response) : Except FetchError (List (String × String)) :=
  if r.status_code == 200 then .ok r.json
  else if r.status_code == 429 then .error .rateLimited
  else .error (.upstream r.status_code r.text)

/-- Query-parameter construction in `fetch_apod` (source lines 54-56): the
api_key always; the date only when `date_str` is truthy (not None, not ""). -/
def fetch_params : Option String → List (String × String)
  | none => [("api_key", API_KEY)]
  | some s => if s == "" then [("api_key", API_KEY)] else [("api_key", API_KEY), ("date", s)]

/-- The argument passed to `fetch_apod` at source line 167: None when the
resolved date equals today's date string, the date itself otherwise. -/
def fetch_arg (fetch_date today_str : String) : Option String :=
  if fetch_date == today_str then none else some fetch_date

/-- Python `dict.get(key, default)` on a parsed JSON body. -/
def jget (d : List (String × String)) (key dflt : String) : String :=
  match d.find? (fun p => p.1 == key) with
  | some p => p.2
  | none => dflt

/-- The expression `data.get("title", "Untitled APOD")` (source line 169). -/
def apod_title (d : List (String × String)) : String := jget d "title" "Untitled APOD"

/-- The expression `data.get("date", "Unknown Date")` (source line 170). -/
def apod_date_field (d : List (String × String)) : String := jget d "date" "Unknown Date"

/-- The expression `data.get("explanation", ...)` (source line 171). -/
def apod_explan_field (d : List (String × String)) : String :=
  jget d "explanation" "No detailed description provided for this picture."

/-- The expression `data.get("media_type", "image")` (source line 189). -/
def apod_media_type (d : List (String × String)) : String := jget d "media_type" "image"

/-- The three-way media dispatch (source lines 191-217). -/
inductive MediaBranch where
  | video
  | image
  | other
deriving DecidableEq

/-- Which branch of the media dispatch runs for a parsed body. -/
def media_branch (d : List (String × String)) : MediaBranch :=
  if apod_media_type d == "video" then .video
  else if apod_media_type d == "image" then .image
  else .other

/-- The preset table `SOLAR_APOD_DATES` (source lines 24-41). -/
def SOLAR_APOD_DATES : List (String × Option String) :=
  [("Select a Solar Event Date", none),
   ("Saturn's Rings Appear to Disappear (2025-04-29)", some "2025-04-29"),
   ("Comet Pons-Brooks in Northern Spring (2024-03-09)", some "2024-03-09"),
   ("Luvovna Full moon (2022-07-15)", some "2022-07-15"),
   ("Earth and the Moon (2021-09-05)", some "2021-09-05"),
   ("GW Orionis: A Star System with Tilted Rings (2020-09-29)", some "2020-09-29"),
   ("NGC 3717: A Nearly Sideways Spiral Galaxy (2019-11-12)", some "2019-11-12"),
   ("NGC 7293: The Helix Nebula (2024-10-24)", some "2024-10-24"),
   ("Reflections of the Ghost Nebula (2023-10-30)", some "2023-10-30"),
   ("Hydrogen Clouds of M33 (2023-10-13)", some "2023-10-13"),
   ("The Changing Ion Tail of Comet Pons-Brooks (2024-04-08)", some "2024-04-08"),
   ("The Large Magellanic Cloud Galaxy (2024-10-02)", some "2024-10-02"),
   ("Athena to the Moon (2025-02-28)", some "2025-02-28"),
   ("Deimos Before Sunrise (2025-05-24)", some "2025-05-24")]

/-- The lookup `SOLAR_APOD_DATES[event_selection_key]` (source line 136). -/
def selected_event_date (key : String) : Option String :=
  match SOLAR_APOD_DATES.find? (fun p => p.1 == key) with
  | some p => p.2
  | none => none

/-- The final fetch-date choice (source lines 140-143): the selected event
date when truthy, the manual date string otherwise. -/
def fetch_date_str (manual_date_str : String) : Option String → String
  | none => manual_date_str
  | some s => if s == "" then manual_date_str else s

/-- The cache TTL in seconds (source line 51, `st.cache_data(ttl=3600)`). -/
def TTL : Nat := 3600

/-- Lookup of the stored cache entry for a key: stored-at time and value. -/
def cacheLookup (c : List (String × Nat × String)) (k : String) :
    Option (Nat × String) :=
  match c.find? (fun e => e.1 == k) with
  | some e => some e.2
  | none => none

/-- Modelled from the spec: the memoisation performed by Streamlit's
`st.cache_data(ttl=3600)` decorator on `fetch_apod` (source line 51) lives in
the Streamlit library, outside this repository, so `getOrFetch` follows the
spec's Result Cache contract (section 4.3): a stored entry no older than the
TTL is returned without invoking `fetchFn`; an absent or stale entry causes
`fetchFn` to be invoked at the current time and its result to replace the
stored entry. The returned Bool records whether `fetchFn` was invoked. -/
def getOrFetch (now : Nat) (c : List (String × Nat × String)) (k : String)
    (fetchFn : Nat → String) : String × List (String × Nat × String) × Bool :=
  match cacheLookup c k with
  | some (t, v) =>
    if now - t ≤ TTL then (v, c, false)
    else (fetchFn now, (k, now, fetchFn now) :: c.filter (fun e => !(e.1 == k)), true)
  | none => (fetchFn now, (k, now, fetchFn now) :: c, true)

/-- A Python `datetime.date` value: year, month, day. -/
structure PyDate where
  year : Nat
  month : Nat
  day : Nat
deriving DecidableEq

/-- Calendar order on dates: lexicographic on year, month, day (models
Python date comparison). -/
def PyDate.le (a b : PyDate) : Bool :=
  Nat.blt a.year b.year ||
    (a.year == b.year &&
      (Nat.blt a.month b.month || (a.month == b.month && Nat.ble a.day b.day)))

/-- The `min_value` of the date widget (source line 121): `date(1995, 6, 16)`. -/
def MIN_APOD_DATE : PyDate := ⟨1995, 6, 16⟩

/-- The failure kind of the Date Resolver for an out-of-range manual date. -/
inductive DateError where
  | invalidDate
deriving DecidableEq

/-- Modelled from the spec: the enforcement of the `min_value`/`max_value`
bounds passed to the date_input widget (source lines 117-122) happens inside
the Streamlit library, outside this repository; per the spec's Date Resolver
contract (section 4.1), a manual date outside [1995-06-16, today] fails with
InvalidDateError and any date inside the range is accepted unchanged. The
bounds themselves are the source's: `date(1995, 6, 16)` and `date.today()`. -/
def resolve_manual_date (today d : PyDate) : Except DateError PyDate :=
  if PyDate.le MIN_APOD_DATE d && PyDate.le d today then .ok d
  else .error .invalidDate

end Cyberscavengers

namespace Cyberscavengers

/- Claim C1: first-match body scan. -/

theorem main_body_scan_eq_find (title explan : String) (l : List String) :
    main_body_scan title explan l = ((l.find? (fun b => bodyOccurs b title explan)).getD "Sun") := by
  induction l with
  | nil => rfl
  | cons b rest ih =>
    by_cases h : bodyOccurs b title explan = true
    · simp [main_body_scan, List.find?, h]
    · simp only [Bool.not_eq_true] at h
      simp [main_body_scan, List.find?, h, ih]

/-- C1: for every entry, `main_body` is the result of scanning the fixed list
Mercury, Venus, Mars, Jupiter, Saturn, Uranus, Neptune, Earth, Moon in that
order against the lowercased title and explanation: the first body whose name
occurs wins, and `"Sun"` is the default when none occurs. In particular, when
"saturn" occurs and no earlier-priority body name does, the result is
`"Saturn"`. -/
theorem C1_primary_body (title explan : String) :
    main_body title explan
      = ((body_scan_order.find? (fun b => bodyOccurs b title explan)).getD "Sun") ∧
    ((∀ b ∈ body_scan_order, bodyOccurs b title explan = false) →
      main_body title explan = "Sun") ∧
    (bodyOccurs "Saturn" title explan = true →
      bodyOccurs "Mercury" title explan = false →
      bodyOccurs "Venus" title explan = false →
      bodyOccurs "Mars" title explan = false →
      bodyOccurs "Jupiter" title explan = false →
      main_body title explan = "Saturn") := by
  refine ⟨main_body_scan_eq_find title explan body_scan_order, ?_, ?_⟩
  · intro hnone
    have h := main_body_scan_eq_find title explan body_scan_order
    rw [List.find?_eq_none.mpr (fun b hb => by simp [hnone b hb])] at h
    simpa using h
  · intro hs hm hv hma hj
    simp [main_body, body_scan_order, main_body_scan, hs, hm, hv, hma, hj]

/-- Witness for C1 at the spec's own example title. -/
theorem C1_primary_body_witness :
    main_body "Saturn's Rings Appear to Disappear" "" = "Saturn" :=
  (C1_primary_body "Saturn's Rings Appear to Disappear" "").2.2
    (by decide) (by decide) (by decide) (by decide) (by decide)

end Cyberscavengers

namespace Cyberscavengers

/-- C2: for every entry whose date is in the exclusion list, the classifier
verdict (the source line 243 condition) is false, regardless of the title and
explanation — the exclusion override dominates the keyword match. -/
theorem C2_exclusion_dominates (title explan apod_date : String)
    (h : apod_date ∈ EXCLUDE_DATES) :
    solar_verdict title explan apod_date = false := by
  have hc : EXCLUDE_DATES.contains apod_date = true := by simpa using h
  simp [solar_verdict, hc]
  intro _
  exact h

/-- Witness for C2: the excluded date 1998-04-01 with a keyword-matching
title still yields a false verdict. -/
theorem C2_exclusion_dominates_witness :
    solar_verdict "Mars over the Desert" "" "1998-04-01" = false :=
  C2_exclusion_dominates "Mars over the Desert" "" "1998-04-01" (by decide)

/-- C9: keyword matching is plain lowercase substring containment, not
whole-word matching: whenever some listed keyword occurs as a substring of the
lowercased title or the lowercased explanation — even inside a longer word —
the keyword step `apod_is_solar` returns true. -/
theorem C9_substring_matching (title explan keyword : String)
    (hk : keyword ∈ solar_system_keywords)
    (hocc : strIn keyword (lower title) = true ∨ strIn keyword (lower explan) = true) :
    apod_is_solar title explan = true := by
  refine List.any_eq_true.mpr ⟨keyword, hk, ?_⟩
  rcases hocc with h | h <;> simp [h]

/-- Witness for C9: "iss" inside "Mission" and "sun" inside "Sunset" each
trigger a solar classification although no keyword appears as a whole word. -/
theorem C9_substring_matching_witness :
    apod_is_solar "Mission to the Stars" "" = true ∧
    apod_is_solar "A Colorful Sunset" "" = true :=
  ⟨C9_substring_matching "Mission to the Stars" "" "iss" (by decide) (Or.inl (by decide)),
   C9_substring_matching "A Colorful Sunset" "" "sun" (by decide) (Or.inl (by decide))⟩

end Cyberscavengers

namespace Cyberscavengers

/-- C4: `fetch_apod` treats HTTP 429 and other non-200 responses as distinct
failure kinds: 429 raises the rate-limit error, any other non-200 raises the
upstream error carrying the status code and the raw response body, and the
two kinds are never equal. -/
theorem C4_distinct_failure_kinds (r : Response) :
    (r.status_code = 429 → fetch_apod r = .error .rateLimited) ∧
    (r.status_code ≠ 200 → r.status_code ≠ 429 →
      fetch_apod r = .error (.upstream r.status_code r.text)) ∧
    (∀ c b, (FetchError.rateLimited : FetchError) ≠ .upstream c b) := by
  refine ⟨?_, ?_, ?_⟩
  · intro h; simp [fetch_apod, h]
  · intro h200 h429; simp [fetch_apod, h200, h429]
  · intro c b hcontra; exact FetchError.noConfusion hcontra

/-- Witness for C4 at a 429 and at a 500 response. -/
theorem C4_distinct_failure_kinds_witness :
    fetch_apod ⟨429, [], "Too Many Requests"⟩ = .error .rateLimited ∧
    fetch_apod ⟨500, [], "Internal Server Error"⟩
      = .error (.upstream 500 "Internal Server Error") :=
  ⟨(C4_distinct_failure_kinds ⟨429, [], "Too Many Requests"⟩).1 rfl,
   (C4_distinct_failure_kinds ⟨500, [], "Internal Server Error"⟩).2.1
     (by decide) (by decide)⟩

/-- C3 counterexample: a 200 response whose JSON body has no "title" field
does not make `fetch_apod` fail — the code has no MalformedResponseError at
all; the parsed body is returned unchanged, contradicting the claim that such
a response raises an error. -/
theorem C3_counterexample :
    ([("date", "2024-01-01"), ("explanation", "x"), ("url", "u")].find?
        (fun p => p.1 == "title") = none) ∧
    fetch_apod ⟨200, [("date", "2024-01-01"), ("explanation", "x"), ("url", "u")], "raw"⟩
      = .ok [("date", "2024-01-01"), ("explanation", "x"), ("url", "u")] :=
  ⟨by decide, rfl⟩

/-- C3 amended: on every 200 response `fetch_apod` returns the parsed JSON
body unchanged, without validating required fields — a missing field raises
nothing (defaults are substituted downstream, see C10); in particular when
all required fields are present the returned entry's fields exactly match the
input JSON. -/
theorem C3_amended_no_validation (r : Response) (h : r.status_code = 200) :
    fetch_apod r = .ok r.json := by
  simp [fetch_apod, h]

/-- Witness for the amended C3 at a complete 200 response. -/
theorem C3_amended_no_validation_witness :
    fetch_apod ⟨200, [("title", "T"), ("date", "D"), ("explanation", "E"), ("url", "U")], "raw"⟩
      = .ok [("title", "T"), ("date", "D"), ("explanation", "E"), ("url", "U")] :=
  C3_amended_no_validation ⟨200, [("title", "T"), ("date", "D"), ("explanation", "E"), ("url", "U")], "raw"⟩ rfl

/-- C10: the display pipeline never fails on a 200 response with missing
fields: `fetch_apod` returns the parsed JSON without validation, and the
downstream accessors substitute defaults — a missing title becomes
"Untitled APOD", a missing date becomes "Unknown Date", a missing explanation
becomes the placeholder text, and a missing media_type is treated as "image"
(not "other"). -/
theorem C10_missing_field_defaults (d : List (String × String)) :
    (d.find? (fun p => p.1 == "title") = none → apod_title d = "Untitled APOD") ∧
    (d.find? (fun p => p.1 == "date") = none → apod_date_field d = "Unknown Date") ∧
    (d.find? (fun p => p.1 == "explanation") = none →
      apod_explan_field d = "No detailed description provided for this picture.") ∧
    (d.find? (fun p => p.1 == "media_type") = none → media_branch d = .image) ∧
    (∀ r : Response, r.status_code = 200 → fetch_apod r = .ok r.json) := by
  refine ⟨?_, ?_, ?_, ?_, ?_⟩
  · intro h; simp [apod_title, jget, h]
  · intro h; simp [apod_date_field, jget, h]
  · intro h; simp [apod_explan_field, jget, h]
  · intro h; simp [media_branch, apod_media_type, jget, h]
  · intro r h; simp [fetch_apod, h]

/-- Witness for C10 at a body holding only a url field. -/
theorem C10_missing_field_defaults_witness :
    apod_title [("url", "u")] = "Untitled APOD" ∧
    apod_date_field [("url", "u")] = "Unknown Date" ∧
    media_branch [("url", "u")] = .image :=
  have h := C10_missing_field_defaults [("url", "u")]
  ⟨h.1 (by decide), h.2.1 (by decide), h.2.2.2.1 (by decide)⟩

/-- C6: when the resolved date equals the caller's current date string, the
fetch is issued with no date parameter (the latest sentinel); for any other
(nonempty) resolved date the date parameter carrying that date is included. -/
theorem C6_latest_sentinel (fetch_date today_str : String) :
    (fetch_date = today_str →
      fetch_params (fetch_arg fetch_date today_str) = [("api_key", API_KEY)]) ∧
    (fetch_date ≠ today_str → fetch_date ≠ "" →
      fetch_params (fetch_arg fetch_date today_str)
        = [("api_key", API_KEY), ("date", fetch_date)]) := by
  constructor
  · intro h; simp [fetch_arg, h, fetch_params]
  · intro hne hempty
    have h1 : (fetch_date == today_str) = false := by simpa using hne
    have h2 : (fetch_date == "") = false := by simpa using hempty
    simp [fetch_arg, h1, fetch_params, h2]

/-- Witness for C6: same-day fetch omits the date; a past date includes it. -/
theorem C6_latest_sentinel_witness :
    fetch_params (fetch_arg "2025-10-12" "2025-10-12") = [("api_key", API_KEY)] ∧
    fetch_params (fetch_arg "2024-04-08" "2025-10-12")
      = [("api_key", API_KEY), ("date", "2024-04-08")] :=
  ⟨(C6_latest_sentinel "2025-10-12" "2025-10-12").1 rfl,
   (C6_latest_sentinel "2024-04-08" "2025-10-12").2 (by decide) (by decide)⟩

/-- C5: when the preset key maps to a configured (non-null) event date, the
resolved fetch date is that preset date, overriding the manual date; when the
key maps to no date, the manual date is used; and no table entry maps to the
empty string, so the nonemptiness hypothesis holds for every configured
preset. -/
theorem C5_preset_overrides (manual key d : String) :
    (selected_event_date key = some d → d ≠ "" →
      fetch_date_str manual (selected_event_date key) = d) ∧
    (selected_event_date key = none →
      fetch_date_str manual (selected_event_date key) = manual) ∧
    (∀ p ∈ SOLAR_APOD_DATES, p.2 ≠ some "") := by
  refine ⟨?_, ?_, ?_⟩
  · intro hsome hne
    have h2 : (d == "") = false := by simpa using hne
    simp [hsome, fetch_date_str, h2]
  · intro hnone; simp [hnone, fetch_date_str]
  · decide

/-- Witness for C5: a configured preset wins over the manual date; the
null placeholder entry falls back to the manual date. -/
theorem C5_preset_overrides_witness :
    fetch_date_str "2020-01-01"
      (selected_event_date "The Changing Ion Tail of Comet Pons-Brooks (2024-04-08)")
      = "2024-04-08" ∧
    fetch_date_str "2020-01-01" (selected_event_date "Select a Solar Event Date")
      = "2020-01-01" :=
  ⟨(C5_preset_overrides "2020-01-01"
      "The Changing Ion Tail of Comet Pons-Brooks (2024-04-08)" "2024-04-08").1
      (by decide) (by decide),
   (C5_preset_overrides "2020-01-01" "Select a Solar Event Date" "").2.1 (by decide)⟩

end Cyberscavengers

namespace Cyberscavengers

/-- C7: two `getOrFetch` lookups in succession with the same key and no
elapsed TTL invoke the underlying fetch function exactly once (the first
invokes it, the second returns the cached value without invoking it); a
lookup for the same key after the TTL of 3600 seconds has expired invokes the
fetch function a second time and its result replaces the stale entry. -/
theorem C7_cache_ttl (k : String) (f : Nat → String) (t1 t2 t3 : Nat)
    (h12 : t2 - t1 ≤ TTL) (h13 : TTL < t3 - t1) :
    (getOrFetch t1 [] k f).2.2 = true ∧
    (getOrFetch t2 (getOrFetch t1 [] k f).2.1 k f).2.2 = false ∧
    (getOrFetch t2 (getOrFetch t1 [] k f).2.1 k f).1 = f t1 ∧
    (getOrFetch t3 (getOrFetch t1 [] k f).2.1 k f).2.2 = true ∧
    (getOrFetch t3 (getOrFetch t1 [] k f).2.1 k f).1 = f t3 ∧
    cacheLookup (getOrFetch t3 (getOrFetch t1 [] k f).2.1 k f).2.1 k
      = some (t3, f t3) := by
  have hn3 : ¬ (t3 - t1 ≤ TTL) := Nat.not_le.mpr h13
  have hfirst : getOrFetch t1 [] k f = (f t1, [(k, t1, f t1)], true) := by
    simp [getOrFetch, cacheLookup]
  have hlook : cacheLookup [(k, t1, f t1)] k = some (t1, f t1) := by
    simp [cacheLookup, List.find?]
  have hsecond : getOrFetch t2 [(k, t1, f t1)] k f
      = (f t1, [(k, t1, f t1)], false) := by
    unfold getOrFetch
    rw [hlook]
    exact if_pos h12
  have hfilter : List.filter (fun e => !(e.1 == k)) [(k, t1, f t1)] = [] := by
    simp [List.filter]
  have hthird : getOrFetch t3 [(k, t1, f t1)] k f = (f t3, [(k, t3, f t3)], true) := by
    unfold getOrFetch
    rw [hlook, hfilter]
    exact if_neg hn3
  have hlook3 : cacheLookup [(k, t3, f t3)] k = some (t3, f t3) := by
    simp [cacheLookup, List.find?]
  simp [hfirst, hsecond, hthird, hlook3]

/-- Witness for C7 at key "2024-04-08", times 0, 100 and 4000. -/
theorem C7_cache_ttl_witness :
    (getOrFetch 0 [] "2024-04-08" (fun _ => "entry")).2.2 = true ∧
    (getOrFetch 100 (getOrFetch 0 [] "2024-04-08" (fun _ => "entry")).2.1
        "2024-04-08" (fun _ => "entry")).2.2 = false ∧
    (getOrFetch 4000 (getOrFetch 0 [] "2024-04-08" (fun _ => "entry")).2.1
        "2024-04-08" (fun _ => "entry")).2.2 = true :=
  have h := C7_cache_ttl "2024-04-08" (fun _ => "entry") 0 100 4000
    (by decide) (by decide)
  ⟨h.1, h.2.1, h.2.2.2.1⟩

/-- C8: resolution of a manual date fails with InvalidDateError exactly when
the date is before 1995-06-16 or after the caller's current date; every
manual date inside [1995-06-16, today] is accepted unchanged. -/
theorem C8_manual_date_bounds (today d : PyDate) :
    (resolve_manual_date today d = .ok d ↔
      (PyDate.le MIN_APOD_DATE d = true ∧ PyDate.le d today = true)) ∧
    ((PyDate.le MIN_APOD_DATE d = false ∨ PyDate.le d today = false) →
      resolve_manual_date today d = .error .invalidDate) := by
  by_cases h1 : PyDate.le MIN_APOD_DATE d = true <;>
    by_cases h2 : PyDate.le d today = true <;>
      simp [resolve_manual_date, h1, h2]

/-- Witness for C8: 1990-01-01 is rejected, 2024-04-08 is accepted, with
today taken as 2026-10-12. -/
theorem C8_manual_date_bounds_witness :
    resolve_manual_date ⟨2026, 10, 12⟩ ⟨1990, 1, 1⟩ = .error .invalidDate ∧
    resolve_manual_date ⟨2026, 10, 12⟩ ⟨2024, 4, 8⟩ = .ok ⟨2024, 4, 8⟩ :=
  ⟨(C8_manual_date_bounds ⟨2026, 10, 12⟩ ⟨1990, 1, 1⟩).2 (Or.inl (by decide)),
   ((C8_manual_date_bounds ⟨2026, 10, 12⟩ ⟨2024, 4, 8⟩).1).mpr
     ⟨by decide, by decide⟩⟩

end Cyberscavengers
